import Mathlib

/-!
Shallow embedding of the node-configuration derivation engine of the
avail-project `arbitrum-orbit-sdk` repository: the function
`prepareNodeConfig` together with its local helpers `sanitizePrivateKey`,
`getDisableBlobReader` and `stringifyInfoJson`, and the input/output record
types they operate on.

The TypeScript source builds a single nested `NodeConfig` object, throws on
one cross-field invariant (a layer-1 parent chain without a beacon RPC URL),
and conditionally fills three sub-blocks (parent-chain blob client,
data-availability committee, fallback S3 storage).  We embed the function as
`PrepareNodeConfigParams → Except String NodeConfig`: throwing becomes
`Except.error` with the thrown message, and the three in-place mutations of
the `config` object become three explicit record-update steps applied in the
source's order.

Hyphenated JSON keys of the output document (for example `info-json`,
`parent-chain-id`, `disable-blob-reader`) are rendered as camelCase Lean
field names; the correspondence is one-to-one and is noted on each structure.
Optional JavaScript values become `Option`, and JavaScript string truthiness
(`undefined` and `""` are falsy) is made explicit by `isTruthy`.
-/

/-- Modelled from the spec: the type `ParentChainId`, imported by the engine
from `./types/ParentChain` which is not among the provided sources.  In the
source it is a union of the numeric chain ids of the supported parent chains;
following the spec's instruction to implement the classification data as "an
injective mapping (enumeration or table)" over numeric chain ids, we
enumerate the supported parent chains. -/
inductive ParentChainId where
  | mainnet
  | sepolia
  | holesky
  | arbitrumOne
  | arbitrumNova
  | arbitrumSepolia
deriving DecidableEq

/-- Modelled from the spec: the numeric chain id of each supported parent
chain, the injective enumeration-to-number table the spec describes. -/
def ParentChainId.toChainId : ParentChainId → Nat
  | .mainnet => 1
  | .sepolia => 11155111
  | .holesky => 17000
  | .arbitrumOne => 42161
  | .arbitrumNova => 42170
  | .arbitrumSepolia => 421614

/-- Modelled from the spec: `getParentChainLayer` (imported from `./utils`,
not among the provided sources) classifies the parent chain as settlement
layer 1 or layer 2, "a pure function of chain id — table lookup".  Ethereum
mainnet and its testnets are layer 1; the Arbitrum chains are layer 2. -/
def getParentChainLayer : ParentChainId → Nat
  | .mainnet => 1
  | .sepolia => 1
  | .holesky => 1
  | .arbitrumOne => 2
  | .arbitrumNova => 2
  | .arbitrumSepolia => 2

/-- Modelled from the spec: `parentChainIsArbitrum` (imported from
`./parentChainIsArbitrum`, not among the provided sources) is the
"is-Arbitrum" rollup-stack-family classification, another pure table lookup
over the chain id. -/
def parentChainIsArbitrum : ParentChainId → Bool
  | .mainnet => false
  | .sepolia => false
  | .holesky => false
  | .arbitrumOne => true
  | .arbitrumNova => true
  | .arbitrumSepolia => true

/-- Modelled from the spec: `validateParentChain` (imported from
`./types/ParentChain`, not among the provided sources) checks that a chain id
is a supported parent chain and returns it.  On the already-validated
`ParentChainId` type it is the identity. -/
def validateParentChain (parentChainId : ParentChainId) : ParentChainId :=
  parentChainId

/-- Modelled from the spec/usage: the parsed on-chain chain configuration
(`ChainConfig`, imported from `./types/ChainConfig`, not among the provided
sources).  The engine treats it as "an opaque, already-validated record" and
reads exactly two fields: `chainId` and `arbitrum.DataAvailabilityCommittee`;
only those are modelled. -/
structure ArbitrumChainParams where
  DataAvailabilityCommittee : Bool
deriving DecidableEq

/-- Modelled from the spec/usage: see `ArbitrumChainParams`. -/
structure ChainConfig where
  chainId : Nat
  arbitrum : ArbitrumChainParams
deriving DecidableEq

/-- Modelled from the spec/usage: the core contract addresses returned by the
rollup deployment (`CoreContracts`, imported from `./types/CoreContracts`,
not among the provided sources); the fields are exactly those the engine
copies into the output. -/
structure CoreContracts where
  bridge : String
  inbox : String
  sequencerInbox : String
  rollup : String
  validatorUtils : String
  validatorWalletCreator : String
  deployedAtBlockNumber : Nat
deriving DecidableEq

/-- From `src/src/types/FallbackS3Config.ts`: a toggle plus five optional
string fields. -/
structure FallbackS3Config where
  enable : Bool
  accessKey : Option String := none
  bucket : Option String := none
  objectPrefix : Option String := none
  region : Option String := none
  secretKey : Option String := none
deriving DecidableEq

/-- The input record of `prepareNodeConfig` (`PrepareNodeConfigParams` in the
source).  Optional TypeScript fields (`parentChainBeaconRpcUrl?`,
`dasServerUrl?`) become `Option String`. -/
structure PrepareNodeConfigParams where
  chainName : String
  chainConfig : ChainConfig
  coreContracts : CoreContracts
  batchPosterPrivateKey : String
  validatorPrivateKey : String
  availAddressSeed : String
  availAppId : Int
  fallbackS3Config : FallbackS3Config
  parentChainId : ParentChainId
  parentChainRpcUrl : String
  parentChainBeaconRpcUrl : Option String := none
  dasServerUrl : Option String := none
deriving DecidableEq

/-- The `rollup` block of the chain info record (JSON keys `bridge`, `inbox`,
`sequencer-inbox`, `rollup`, `validator-utils`, `validator-wallet-creator`,
`deployed-at`). -/
structure ChainInfoRollup where
  bridge : String
  inbox : String
  sequencerInbox : String
  rollup : String
  validatorUtils : String
  validatorWalletCreator : String
  deployedAt : Nat
deriving DecidableEq

/-- One element of the chain `info-json` array (JSON keys `chain-id`,
`parent-chain-id`, `parent-chain-is-arbitrum`, `chain-name`, `chain-config`,
`rollup`). -/
structure ChainInfoJson where
  chainId : Nat
  parentChainId : ParentChainId
  parentChainIsArbitrum : Bool
  chainName : String
  chainConfig : ChainConfig
  rollup : ChainInfoRollup
deriving DecidableEq

/-- The `chain` section of the output (JSON keys `info-json`, `name`). -/
structure ChainSection where
  infoJson : List ChainInfoJson
  name : String
deriving DecidableEq

/-- The `connection` block of the `parent-chain` section. -/
structure ParentChainConnection where
  url : String
deriving DecidableEq

/-- The `blob-client` block of the `parent-chain` section (JSON key
`beacon-url`). -/
structure BlobClient where
  beaconUrl : String
deriving DecidableEq

/-- The `parent-chain` section: always a connection URL, and a blob client
only when a beacon RPC URL is set. -/
structure ParentChainSection where
  connection : ParentChainConnection
  blobClient : Option BlobClient := none
deriving DecidableEq

/-- The `http` section of the output. -/
structure HttpSection where
  addr : String
  port : Nat
  vhosts : List String
  corsdomain : List String
  api : List String
deriving DecidableEq

/-- The `delayed-sequencer` block (JSON keys `enable`, `use-merge-finality`,
`finalize-distance`). -/
structure DelayedSequencer where
  enable : Bool
  useMergeFinality : Bool
  finalizeDistance : Nat
deriving DecidableEq

/-- The `parent-chain-wallet` block (JSON key `private-key`). -/
structure ParentChainWallet where
  privateKey : String
deriving DecidableEq

/-- The `batch-poster` block (JSON keys `max-size`, `enable`,
`parent-chain-wallet`). -/
structure BatchPosterSection where
  maxSize : Nat
  enable : Bool
  parentChainWallet : ParentChainWallet
deriving DecidableEq

/-- The `staker` block (JSON keys `enable`, `strategy`,
`parent-chain-wallet`). -/
structure StakerSection where
  enable : Bool
  strategy : String
  parentChainWallet : ParentChainWallet
deriving DecidableEq

/-- The `dangerous` block (JSON keys `no-sequencer-coordinator`,
`disable-blob-reader`). -/
structure DangerousSection where
  noSequencerCoordinator : Bool
  disableBlobReader : Bool
deriving DecidableEq

/-- The `fallback-s3-service-config` block of the `avail` section (JSON keys
`enable`, `access-key`, `bucket`, `object-prefix`, `region`, `secret-key`,
`discard-after-timeout`); everything beyond `enable` is set only in the
enabled variant. -/
structure FallbackS3ServiceConfig where
  enable : Bool
  accessKey : Option String := none
  bucket : Option String := none
  objectPrefix : Option String := none
  region : Option String := none
  secretKey : Option String := none
  discardAfterTimeout : Option Bool := none
deriving DecidableEq

/-- The `avail-bridge-config` block (JSON keys `avail-bridge-api-url`,
`vectorx-address`, `arbsepolia-rpc`). -/
structure AvailBridgeConfig where
  availBridgeApiUrl : String
  vectorxAddress : String
  arbsepoliaRpc : String
deriving DecidableEq

/-- The `avail` block of the `node` section (JSON keys `enable`, `seed`,
`avail-api-url`, `app-id`, `timeout`, `fallback-s3-service-config`,
`avail-bridge-config`). -/
structure AvailSection where
  enable : Bool
  seed : String
  availApiUrl : String
  appId : Int
  timeout : String
  fallbackS3ServiceConfig : FallbackS3ServiceConfig
  availBridgeConfig : AvailBridgeConfig
deriving DecidableEq

/-- The `rest-aggregator` block of the `data-availability` section. -/
structure RestAggregator where
  enable : Bool
  urls : List String
deriving DecidableEq

/-- The `rpc-aggregator` block of the `data-availability` section (JSON keys
`enable`, `assumed-honest`). -/
structure RpcAggregator where
  enable : Bool
  assumedHonest : Nat
deriving DecidableEq

/-- The `data-availability` block of the `node` section (JSON keys `enable`,
`sequencer-inbox-address`, `parent-chain-node-url`, `rest-aggregator`,
`rpc-aggregator`). -/
structure DataAvailabilitySection where
  enable : Bool
  sequencerInboxAddress : String
  parentChainNodeUrl : String
  restAggregator : RestAggregator
  rpcAggregator : RpcAggregator
deriving DecidableEq

/-- The `node` section of the output (JSON keys `sequencer`,
`delayed-sequencer`, `batch-poster`, `staker`, `dangerous`, `avail`,
`data-availability`); the data-availability block is present only in
committee mode. -/
structure NodeSection where
  sequencer : Bool
  delayedSequencer : DelayedSequencer
  batchPoster : BatchPosterSection
  staker : StakerSection
  dangerous : DangerousSection
  avail : AvailSection
  dataAvailability : Option DataAvailabilitySection := none
deriving DecidableEq

/-- The `sequencer` block of the `execution` section (JSON keys `enable`,
`max-tx-data-size`, `max-block-speed`). -/
structure ExecutionSequencer where
  enable : Bool
  maxTxDataSize : Nat
  maxBlockSpeed : String
deriving DecidableEq

/-- The `caching` block of the `execution` section. -/
structure CachingSection where
  archive : Bool
deriving DecidableEq

/-- The `execution` section of the output (JSON keys `forwarding-target`,
`sequencer`, `caching`). -/
structure ExecutionSection where
  forwardingTarget : String
  sequencer : ExecutionSequencer
  caching : CachingSection
deriving DecidableEq

/-- The output document `NodeConfig` (JSON keys `chain`, `parent-chain`,
`http`, `node`, `execution`). -/
structure NodeConfig where
  chain : ChainSection
  parentChain : ParentChainSection
  http : HttpSection
  node : NodeSection
  execution : ExecutionSection
deriving DecidableEq

/-- `sanitizePrivateKey` from the source: remove a leading `0x` marker when
present, otherwise return the key unchanged. -/
def sanitizePrivateKey (privateKey : String) : String :=
  if privateKey.startsWith "0x" then privateKey.drop 2 else privateKey

/-- `stringifyInfoJson` from the source serializes the info record array with
`JSON.stringify`; serialization is injective on this record type, so the
embedding keeps the structured value itself. -/
def stringifyInfoJson (infoJson : List ChainInfoJson) : List ChainInfoJson :=
  infoJson

/-- JavaScript truthiness of an optional string, as used by the source's
`!parentChainBeaconRpcUrl` and `if (parentChainBeaconRpcUrl)` tests: both a
missing value (`undefined`) and the empty string are falsy. -/
def isTruthy : Option String → Bool
  | none => false
  | some s => s != ""

/-- `getDisableBlobReader` from the source: the blob reader is disabled when
the parent chain is neither layer 1 nor an Arbitrum chain. -/
def getDisableBlobReader (parentChainId : ParentChainId) : Bool :=
  if getParentChainLayer parentChainId != 1 && !(parentChainIsArbitrum parentChainId) then
    true
  else
    false

/-- The thrown message of the one error of `prepareNodeConfig`; the spec
calls this failure `MissingRequiredField("parentChainBeaconRpcUrl")`. -/
def beaconUrlRequiredError : String :=
  "\"parentChainBeaconRpcUrl\" is required for L2 Orbit chains."

/-- The `const config : NodeConfig = \x7b ... \x7d` literal of the source:
the unconditional part of the document, before the three conditional
sub-block assignments. -/
def baseNodeConfig (p : PrepareNodeConfigParams) : NodeConfig :=
  { chain := {
      infoJson := stringifyInfoJson [
        { chainId := p.chainConfig.chainId
          parentChainId := p.parentChainId
          parentChainIsArbitrum := parentChainIsArbitrum (validateParentChain p.parentChainId)
          chainName := p.chainName
          chainConfig := p.chainConfig
          rollup := {
            bridge := p.coreContracts.bridge
            inbox := p.coreContracts.inbox
            sequencerInbox := p.coreContracts.sequencerInbox
            rollup := p.coreContracts.rollup
            validatorUtils := p.coreContracts.validatorUtils
            validatorWalletCreator := p.coreContracts.validatorWalletCreator
            deployedAt := p.coreContracts.deployedAtBlockNumber } } ]
      name := p.chainName }
    parentChain := { connection := { url := p.parentChainRpcUrl } }
    http := {
      addr := "0.0.0.0"
      port := 8449
      vhosts := ["*"]
      corsdomain := ["*"]
      api := ["eth", "net", "web3", "arb", "debug"] }
    node := {
      sequencer := true
      delayedSequencer := { enable := true, useMergeFinality := false, finalizeDistance := 1 }
      batchPoster := {
        maxSize := 90000
        enable := true
        parentChainWallet := { privateKey := sanitizePrivateKey p.batchPosterPrivateKey } }
      staker := {
        enable := true
        strategy := "MakeNodes"
        parentChainWallet := { privateKey := sanitizePrivateKey p.validatorPrivateKey } }
      dangerous := {
        noSequencerCoordinator := true
        disableBlobReader := getDisableBlobReader p.parentChainId }
      avail := {
        enable := true
        seed := p.availAddressSeed
        availApiUrl := "wss://turing-rpc.avail.so/ws"
        appId := p.availAppId
        timeout := "100s"
        fallbackS3ServiceConfig := { enable := false }
        availBridgeConfig := {
          availBridgeApiUrl := "https://turing-bridge-api.fra.avail.so/"
          vectorxAddress := "0xA712dfec48AF3a78419A8FF90fE8f97Ae74680F0"
          arbsepoliaRpc := "wss://sepolia-rollup.arbitrum.io/rpc" } }
      dataAvailability := none }
    execution := {
      forwardingTarget := ""
      sequencer := { enable := true, maxTxDataSize := 85000, maxBlockSpeed := "250ms" }
      caching := { archive := true } } }

/-- The source's first conditional assignment: when `parentChainBeaconRpcUrl`
is truthy, set `parent-chain.blob-client.beacon-url` to it. -/
def withBlobClient (p : PrepareNodeConfigParams) (config : NodeConfig) : NodeConfig :=
  if isTruthy p.parentChainBeaconRpcUrl then
    { config with parentChain := { config.parentChain with
        blobClient := some { beaconUrl := p.parentChainBeaconRpcUrl.getD "" } } }
  else
    config

/-- The source's second conditional assignment: when the chain config enables
the data-availability committee, set `node.data-availability`, using
`dasServerUrl ?? 'http://localhost'` (nullish coalescing, i.e. `Option.getD`)
with the fixed port suffix `:9877`. -/
def withDataAvailability (p : PrepareNodeConfigParams) (config : NodeConfig) : NodeConfig :=
  if p.chainConfig.arbitrum.DataAvailabilityCommittee then
    { config with node := { config.node with
        dataAvailability := some {
          enable := true
          sequencerInboxAddress := p.coreContracts.sequencerInbox
          parentChainNodeUrl := p.parentChainRpcUrl
          restAggregator := {
            enable := true
            urls := [(p.dasServerUrl.getD "http://localhost") ++ ":9877"] }
          rpcAggregator := { enable := true, assumedHonest := 1 } } } }
  else
    config

/-- The source's third conditional assignment: when the input fallback S3
config is enabled, replace `node.avail.fallback-s3-service-config` with the
enabled variant carrying the five copied fields and
`discard-after-timeout := false`. -/
def withFallbackS3 (p : PrepareNodeConfigParams) (config : NodeConfig) : NodeConfig :=
  if p.fallbackS3Config.enable then
    { config with node := { config.node with
        avail := { config.node.avail with
          fallbackS3ServiceConfig := {
            enable := true
            accessKey := p.fallbackS3Config.accessKey
            bucket := p.fallbackS3Config.bucket
            objectPrefix := p.fallbackS3Config.objectPrefix
            region := p.fallbackS3Config.region
            secretKey := p.fallbackS3Config.secretKey
            discardAfterTimeout := some false } } } }
  else
    config

/-- The fully assembled document: the base literal with the three conditional
assignments applied in the source's order (blob client, data-availability
committee, fallback S3). -/
def assembleNodeConfig (p : PrepareNodeConfigParams) : NodeConfig :=
  withFallbackS3 p (withDataAvailability p (withBlobClient p (baseNodeConfig p)))

/-- `prepareNodeConfig` from the source.  The guard mirrors
`getParentChainLayer(parentChainId) === 1 && !parentChainBeaconRpcUrl`; the
`throw` becomes `Except.error`, and the three in-place conditional
assignments are applied to the base literal in the source's order. -/
def prepareNodeConfig (p : PrepareNodeConfigParams) : Except String NodeConfig :=
  if getParentChainLayer p.parentChainId == 1 && !(isTruthy p.parentChainBeaconRpcUrl) then
    Except.error beaconUrlRequiredError
  else
    Except.ok (assembleNodeConfig p)

/-- Concrete core-contract addresses used by the concrete evaluation
theorems. -/
def exampleCoreContracts : CoreContracts :=
  { bridge := "0xB1"
    inbox := "0xAE"
    sequencerInbox := "0x6C"
    rollup := "0xC5"
    validatorUtils := "0xB3"
    validatorWalletCreator := "0x2B"
    deployedAtBlockNumber := 124393465 }

/-- A concrete input with a layer-2 parent chain (Arbitrum Sepolia), no
beacon RPC URL, committee disabled and fallback storage disabled. -/
def exampleParams : PrepareNodeConfigParams :=
  { chainName := "My Orbit Chain"
    chainConfig := { chainId := 97400766948, arbitrum := { DataAvailabilityCommittee := false } }
    coreContracts := exampleCoreContracts
    batchPosterPrivateKey := "0xaaaa"
    validatorPrivateKey := "bbbb"
    availAddressSeed := "example twelve word seed"
    availAppId := 7
    fallbackS3Config := { enable := false }
    parentChainId := ParentChainId.arbitrumSepolia
    parentChainRpcUrl := "https://sepolia-rollup.arbitrum.io/rpc" }

/-- A concrete input with a layer-1 parent chain (Sepolia), a beacon RPC URL,
committee enabled, an explicit DAS server URL, and fallback storage enabled
with all five fields populated. -/
def exampleParamsL1 : PrepareNodeConfigParams :=
  { exampleParams with
    parentChainId := ParentChainId.sepolia
    parentChainRpcUrl := "https://rpc.sepolia.org"
    parentChainBeaconRpcUrl := some "https://beacon.example"
    chainConfig := { chainId := 97400766948, arbitrum := { DataAvailabilityCommittee := true } }
    dasServerUrl := some "http://das.example"
    fallbackS3Config :=
      { enable := true
        accessKey := some "AKIA"
        bucket := some "orbit-bucket"
        objectPrefix := some "orbit/"
        region := some "eu-west-1"
        secretKey := some "SECRET" } }

/-- A concrete input with a layer-1 parent chain (mainnet) whose beacon RPC
URL is supplied but empty. -/
def exampleParamsL1EmptyBeacon : PrepareNodeConfigParams :=
  { exampleParams with
    parentChainId := ParentChainId.mainnet
    parentChainBeaconRpcUrl := some "" }

/-- A concrete input with a layer-2 parent chain and a (non-empty) beacon RPC
URL supplied anyway. -/
def exampleParamsL2Beacon : PrepareNodeConfigParams :=
  { exampleParams with parentChainBeaconRpcUrl := some "https://beacon.example" }

/-- A concrete input with a layer-2 parent chain and an empty beacon RPC URL
supplied. -/
def exampleParamsL2EmptyBeacon : PrepareNodeConfigParams :=
  { exampleParams with parentChainBeaconRpcUrl := some "" }

/-- A concrete input with fallback storage enabled but none of the five
storage fields present, on a layer-1 parent chain with no beacon RPC URL. -/
def exampleParamsS3MissingFields : PrepareNodeConfigParams :=
  { exampleParams with
    parentChainId := ParentChainId.mainnet
    fallbackS3Config := { enable := true } }

/-- A concrete input with fallback storage enabled but none of the five
storage fields present, on a layer-2 parent chain (so derivation succeeds). -/
def exampleParamsS3MissingFieldsL2 : PrepareNodeConfigParams :=
  { exampleParams with fallbackS3Config := { enable := true } }

/-- Helper: a successful derivation returns exactly the assembled document. -/
theorem prepareNodeConfig_ok_eq (p : PrepareNodeConfigParams) (c : NodeConfig)
    (h : prepareNodeConfig p = Except.ok c) : c = assembleNodeConfig p := by
  unfold prepareNodeConfig at h
  split at h
  · exact absurd h (by simp)
  · exact (Except.ok.inj h).symm

/-- Helper: a successful derivation means the beacon guard is false. -/
theorem prepareNodeConfig_ok_guard (p : PrepareNodeConfigParams) (c : NodeConfig)
    (h : prepareNodeConfig p = Except.ok c) :
    (getParentChainLayer p.parentChainId == 1 && !(isTruthy p.parentChainBeaconRpcUrl)) = false := by
  unfold prepareNodeConfig at h
  split at h
  · exact absurd h (by simp)
  · rename_i hg
    simpa using hg

/-- Helper: the assembled document's `parent-chain` section. -/
theorem assembleNodeConfig_parentChain (p : PrepareNodeConfigParams) :
    (assembleNodeConfig p).parentChain =
      { connection := { url := p.parentChainRpcUrl }
        blobClient :=
          if isTruthy p.parentChainBeaconRpcUrl then
            some { beaconUrl := p.parentChainBeaconRpcUrl.getD "" }
          else none } := by
  unfold assembleNodeConfig withFallbackS3 withDataAvailability withBlobClient baseNodeConfig
  rcases hf : p.fallbackS3Config.enable <;>
    rcases hd : p.chainConfig.arbitrum.DataAvailabilityCommittee <;>
    rcases ht : isTruthy p.parentChainBeaconRpcUrl <;>
    simp [hf, hd, ht]

/-- Claim C1, counterexample: the claim states derivation fails iff the
parent chain is layer 1 and no `parentChainBeaconRpcUrl` was supplied.  On a
layer-1 parent chain with the beacon URL supplied as the empty string, the
URL was supplied and yet derivation fails (the source tests JavaScript
truthiness, under which the empty string counts as missing). -/
theorem prepareNodeConfig_c1_counterexample :
    prepareNodeConfig exampleParamsL1EmptyBeacon = Except.error beaconUrlRequiredError
    ∧ exampleParamsL1EmptyBeacon.parentChainBeaconRpcUrl = some ""
    ∧ exampleParamsL1EmptyBeacon.parentChainBeaconRpcUrl ≠ none
    ∧ getParentChainLayer exampleParamsL1EmptyBeacon.parentChainId = 1 :=
  ⟨rfl, rfl, by decide, rfl⟩

/-- Claim C1 (amended): derivation fails with the missing-required-field
error for the beacon URL if and only if the parent chain is layer 1 and the
supplied `parentChainBeaconRpcUrl` is falsy (absent or the empty string); for
all other inputs it succeeds and returns a configuration document. -/
theorem prepareNodeConfig_beacon_failure_iff (p : PrepareNodeConfigParams) :
    (prepareNodeConfig p = Except.error beaconUrlRequiredError ↔
      getParentChainLayer p.parentChainId = 1 ∧ isTruthy p.parentChainBeaconRpcUrl = false)
    ∧ ((∃ c, prepareNodeConfig p = Except.ok c) ↔
      ¬(getParentChainLayer p.parentChainId = 1 ∧ isTruthy p.parentChainBeaconRpcUrl = false)) := by
  unfold prepareNodeConfig
  split <;> rename_i hg <;>
    simp_all [Bool.and_eq_true, beq_iff_eq, Bool.not_eq_true']

/-- Claim C2, counterexample: the claim states that on success the beacon URL
sub-block is present iff the parent chain is layer 1.  On a layer-2 parent
chain (Arbitrum Sepolia) with a beacon URL supplied, derivation succeeds and
the blob-client sub-block is present although the parent chain is not
layer 1. -/
theorem prepareNodeConfig_c2_counterexample :
    Except.map (fun c => c.parentChain.blobClient) (prepareNodeConfig exampleParamsL2Beacon) =
      Except.ok (some { beaconUrl := "https://beacon.example" })
    ∧ getParentChainLayer exampleParamsL2Beacon.parentChainId ≠ 1 :=
  ⟨rfl, by decide⟩

/-- Claim C2 (amended): on success the blob-client sub-block is present iff a
non-empty (truthy) `parentChainBeaconRpcUrl` was supplied; a layer-1 parent
chain still always has it, because success at layer 1 forces a truthy beacon
URL, but it is also present when a beacon URL is supplied for a layer-2
parent chain. -/
theorem prepareNodeConfig_blobClient_iff_beacon (p : PrepareNodeConfigParams) (c : NodeConfig)
    (h : prepareNodeConfig p = Except.ok c) :
    c.parentChain.blobClient.isSome = isTruthy p.parentChainBeaconRpcUrl
    ∧ (getParentChainLayer p.parentChainId = 1 → c.parentChain.blobClient.isSome = true) := by
  have hg := prepareNodeConfig_ok_guard p c h
  have hc := prepareNodeConfig_ok_eq p c h
  subst hc
  rw [assembleNodeConfig_parentChain p]
  constructor
  · rcases ht : isTruthy p.parentChainBeaconRpcUrl <;> simp [ht]
  · intro hl
    rcases ht : isTruthy p.parentChainBeaconRpcUrl
    · exfalso
      simp [hl, ht] at hg
    · simp [ht]

/-- Claim C3, counterexample: the claim states that on success the beacon
connection sub-block is present iff a beacon endpoint was supplied.  With the
beacon URL supplied as the empty string on a layer-2 parent chain, derivation
succeeds and the sub-block is absent although the endpoint was supplied. -/
theorem prepareNodeConfig_c3_counterexample :
    Except.map (fun c => c.parentChain.blobClient) (prepareNodeConfig exampleParamsL2EmptyBeacon) =
      Except.ok none
    ∧ exampleParamsL2EmptyBeacon.parentChainBeaconRpcUrl = some "" :=
  ⟨rfl, rfl⟩

/-- Claim C3 (amended): on success the beacon connection sub-block is present
iff a non-empty (truthy) beacon endpoint was supplied, and when present its
beacon-url field equals the supplied endpoint verbatim. -/
theorem prepareNodeConfig_blobClient_verbatim (p : PrepareNodeConfigParams) (c : NodeConfig)
    (h : prepareNodeConfig p = Except.ok c) :
    c.parentChain.blobClient.isSome = isTruthy p.parentChainBeaconRpcUrl
    ∧ (∀ b, c.parentChain.blobClient = some b → p.parentChainBeaconRpcUrl = some b.beaconUrl) := by
  have hc := prepareNodeConfig_ok_eq p c h
  subst hc
  rw [assembleNodeConfig_parentChain p]
  constructor
  · rcases ht : isTruthy p.parentChainBeaconRpcUrl <;> simp [ht]
  · intro b hb
    rcases hu : p.parentChainBeaconRpcUrl with _ | s
    · simp [hu, isTruthy] at hb
    · by_cases hs : s = ""
      · simp [hu, hs, isTruthy] at hb
      · simp [hu, isTruthy, hs] at hb
        simp [hu, ← hb]

/-- Helper: the assembled document's `dangerous` block. -/
theorem assembleNodeConfig_dangerous (p : PrepareNodeConfigParams) :
    (assembleNodeConfig p).node.dangerous =
      { noSequencerCoordinator := true
        disableBlobReader := getDisableBlobReader p.parentChainId } := by
  unfold assembleNodeConfig withFallbackS3 withDataAvailability withBlobClient baseNodeConfig
  rcases hf : p.fallbackS3Config.enable <;>
    rcases hd : p.chainConfig.arbitrum.DataAvailabilityCommittee <;>
    rcases ht : isTruthy p.parentChainBeaconRpcUrl <;>
    simp [hf, hd, ht]

/-- Helper: the assembled document's `chain` section is that of the base
literal. -/
theorem assembleNodeConfig_chain (p : PrepareNodeConfigParams) :
    (assembleNodeConfig p).chain = (baseNodeConfig p).chain := by
  unfold assembleNodeConfig withFallbackS3 withDataAvailability withBlobClient
  rcases hf : p.fallbackS3Config.enable <;>
    rcases hd : p.chainConfig.arbitrum.DataAvailabilityCommittee <;>
    rcases ht : isTruthy p.parentChainBeaconRpcUrl <;>
    simp [hf, hd, ht]

/-- Helper: the assembled document's `data-availability` block. -/
theorem assembleNodeConfig_dataAvailability (p : PrepareNodeConfigParams) :
    (assembleNodeConfig p).node.dataAvailability =
      (if p.chainConfig.arbitrum.DataAvailabilityCommittee then
        some {
          enable := true
          sequencerInboxAddress := p.coreContracts.sequencerInbox
          parentChainNodeUrl := p.parentChainRpcUrl
          restAggregator := {
            enable := true
            urls := [(p.dasServerUrl.getD "http://localhost") ++ ":9877"] }
          rpcAggregator := { enable := true, assumedHonest := 1 } }
      else none) := by
  unfold assembleNodeConfig withFallbackS3 withDataAvailability withBlobClient baseNodeConfig
  rcases hf : p.fallbackS3Config.enable <;>
    rcases hd : p.chainConfig.arbitrum.DataAvailabilityCommittee <;>
    rcases ht : isTruthy p.parentChainBeaconRpcUrl <;>
    simp [hf, hd, ht]

/-- Helper: the assembled document's fallback S3 block. -/
theorem assembleNodeConfig_fallbackS3 (p : PrepareNodeConfigParams) :
    (assembleNodeConfig p).node.avail.fallbackS3ServiceConfig =
      (if p.fallbackS3Config.enable then
        { enable := true
          accessKey := p.fallbackS3Config.accessKey
          bucket := p.fallbackS3Config.bucket
          objectPrefix := p.fallbackS3Config.objectPrefix
          region := p.fallbackS3Config.region
          secretKey := p.fallbackS3Config.secretKey
          discardAfterTimeout := some false }
      else { enable := false }) := by
  unfold assembleNodeConfig withFallbackS3 withDataAvailability withBlobClient baseNodeConfig
  rcases hf : p.fallbackS3Config.enable <;>
    rcases hd : p.chainConfig.arbitrum.DataAvailabilityCommittee <;>
    rcases ht : isTruthy p.parentChainBeaconRpcUrl <;>
    simp [hf, hd, ht]

/-- Helper: the assembled document's two wallet private keys. -/
theorem assembleNodeConfig_wallets (p : PrepareNodeConfigParams) :
    (assembleNodeConfig p).node.batchPoster.parentChainWallet.privateKey =
      sanitizePrivateKey p.batchPosterPrivateKey
    ∧ (assembleNodeConfig p).node.staker.parentChainWallet.privateKey =
      sanitizePrivateKey p.validatorPrivateKey := by
  unfold assembleNodeConfig withFallbackS3 withDataAvailability withBlobClient baseNodeConfig
  rcases hf : p.fallbackS3Config.enable <;>
    rcases hd : p.chainConfig.arbitrum.DataAvailabilityCommittee <;>
    rcases ht : isTruthy p.parentChainBeaconRpcUrl <;>
    simp [hf, hd, ht]

/-- Claim C4: on success, the dangerous disable-blob-reader flag is true
exactly when the parent chain's layer is not 1 and the parent chain is not an
Arbitrum chain; in the other layer/family combinations it is false. -/
theorem prepareNodeConfig_disableBlobReader (p : PrepareNodeConfigParams) (c : NodeConfig)
    (h : prepareNodeConfig p = Except.ok c) :
    c.node.dangerous.disableBlobReader = true ↔
      (getParentChainLayer p.parentChainId ≠ 1
        ∧ parentChainIsArbitrum p.parentChainId = false) := by
  have hc := prepareNodeConfig_ok_eq p c h
  subst hc
  rw [assembleNodeConfig_dangerous]
  by_cases hl : getParentChainLayer p.parentChainId = 1 <;>
    rcases hb : parentChainIsArbitrum p.parentChainId <;>
    simp [getDisableBlobReader, hl, hb]

/-- Claim C5: on success, the chain-id and parent-chain-id recorded in the
output's chain info block equal the input `chainConfig.chainId` and
`parentChainId` exactly. -/
theorem prepareNodeConfig_chain_ids (p : PrepareNodeConfigParams) (c : NodeConfig)
    (h : prepareNodeConfig p = Except.ok c) :
    c.chain.infoJson.map (fun info => (info.chainId, info.parentChainId)) =
      [(p.chainConfig.chainId, p.parentChainId)] := by
  have hc := prepareNodeConfig_ok_eq p c h
  subst hc
  rw [assembleNodeConfig_chain]
  rfl

/-- Claim C6: on success, the data-availability-committee sub-block is
present iff the chain config's `DataAvailabilityCommittee` flag is true; when
present, its rest-aggregator URL is the explicit `dasServerUrl` (else the
fixed fallback host `http://localhost`) with the fixed port suffix `:9877`,
and its rpc-aggregator assumed-honest parameter is 1. -/
theorem prepareNodeConfig_dataAvailability (p : PrepareNodeConfigParams) (c : NodeConfig)
    (h : prepareNodeConfig p = Except.ok c) :
    c.node.dataAvailability.isSome = p.chainConfig.arbitrum.DataAvailabilityCommittee
    ∧ (∀ da, c.node.dataAvailability = some da →
        da.restAggregator.urls = [(p.dasServerUrl.getD "http://localhost") ++ ":9877"]
        ∧ da.rpcAggregator.assumedHonest = 1) := by
  have hc := prepareNodeConfig_ok_eq p c h
  subst hc
  rw [assembleNodeConfig_dataAvailability]
  rcases hd : p.chainConfig.arbitrum.DataAvailabilityCommittee <;> simp [hd]

/-- Claim C7: on success, the fallback-storage sub-block's enable flag equals
the input `fallbackS3Config.enable`; when enable is true, the five string
fields are copied verbatim and discard-after-timeout is false. -/
theorem prepareNodeConfig_fallbackS3 (p : PrepareNodeConfigParams) (c : NodeConfig)
    (h : prepareNodeConfig p = Except.ok c) :
    c.node.avail.fallbackS3ServiceConfig.enable = p.fallbackS3Config.enable
    ∧ (p.fallbackS3Config.enable = true →
        c.node.avail.fallbackS3ServiceConfig =
          { enable := true
            accessKey := p.fallbackS3Config.accessKey
            bucket := p.fallbackS3Config.bucket
            objectPrefix := p.fallbackS3Config.objectPrefix
            region := p.fallbackS3Config.region
            secretKey := p.fallbackS3Config.secretKey
            discardAfterTimeout := some false }) := by
  have hc := prepareNodeConfig_ok_eq p c h
  subst hc
  rw [assembleNodeConfig_fallbackS3]
  rcases he : p.fallbackS3Config.enable <;> simp [he]

/-- Claim C8: on success, the private key embedded in each of the two
parent-chain wallet sub-configs equals the corresponding input key with a
leading `0x` marker removed when present, and the input key unchanged
otherwise. -/
theorem prepareNodeConfig_privateKeys (p : PrepareNodeConfigParams) (c : NodeConfig)
    (h : prepareNodeConfig p = Except.ok c) :
    c.node.batchPoster.parentChainWallet.privateKey =
      (if p.batchPosterPrivateKey.startsWith "0x" then p.batchPosterPrivateKey.drop 2
        else p.batchPosterPrivateKey)
    ∧ c.node.staker.parentChainWallet.privateKey =
      (if p.validatorPrivateKey.startsWith "0x" then p.validatorPrivateKey.drop 2
        else p.validatorPrivateKey) := by
  have hc := prepareNodeConfig_ok_eq p c h
  subst hc
  have hw := assembleNodeConfig_wallets p
  exact ⟨hw.1.trans rfl, hw.2.trans rfl⟩

/-- Claim C9, counterexample: the claim states that for every input whose
fallback S3 config is enabled but has storage fields absent, derivation does
not fail.  With such a fallback config on a layer-1 parent chain without a
beacon RPC URL, derivation does fail (with the beacon error — unrelated to
the S3 fields, which are indeed never validated). -/
theorem prepareNodeConfig_c9_counterexample :
    prepareNodeConfig exampleParamsS3MissingFields = Except.error beaconUrlRequiredError
    ∧ exampleParamsS3MissingFields.fallbackS3Config.enable = true
    ∧ exampleParamsS3MissingFields.fallbackS3Config.accessKey = none :=
  ⟨rfl, rfl, rfl⟩

/-- Claim C9 (amended): derivation never validates the fallback S3 fields:
for every input with fallback enable true — fields possibly absent — that
satisfies the beacon precondition, derivation succeeds and returns a document
whose fallback sub-block has enable true with every storage field copied
through from the input (so absent fields stay absent); the only possible
failure is the beacon precondition, never missing S3 fields. -/
theorem prepareNodeConfig_no_s3_validation (p : PrepareNodeConfigParams)
    (hb : ¬(getParentChainLayer p.parentChainId = 1
      ∧ isTruthy p.parentChainBeaconRpcUrl = false))
    (he : p.fallbackS3Config.enable = true) :
    ∃ c, prepareNodeConfig p = Except.ok c
      ∧ c.node.avail.fallbackS3ServiceConfig =
        { enable := true
          accessKey := p.fallbackS3Config.accessKey
          bucket := p.fallbackS3Config.bucket
          objectPrefix := p.fallbackS3Config.objectPrefix
          region := p.fallbackS3Config.region
          secretKey := p.fallbackS3Config.secretKey
          discardAfterTimeout := some false } := by
  refine ⟨assembleNodeConfig p, ?_, ?_⟩
  · unfold prepareNodeConfig
    have hguard :
        (getParentChainLayer p.parentChainId == 1 && !(isTruthy p.parentChainBeaconRpcUrl))
          = false := by
      by_cases hl : getParentChainLayer p.parentChainId = 1 <;>
        rcases ht : isTruthy p.parentChainBeaconRpcUrl <;>
        simp [hl, ht]
      exact absurd ⟨hl, ht⟩ hb
    simp [hguard]
  · rw [assembleNodeConfig_fallbackS3]
    simp [he]

/-- Claim C10: two inputs that differ only in the optional `dasServerUrl`
and whose chain config's `DataAvailabilityCommittee` flag is false produce
identical outputs — `dasServerUrl` has no effect on the document when the
committee sub-block is omitted. -/
theorem prepareNodeConfig_dasServerUrl_irrelevant (p : PrepareNodeConfigParams)
    (u₁ u₂ : Option String)
    (h : p.chainConfig.arbitrum.DataAvailabilityCommittee = false) :
    prepareNodeConfig { p with dasServerUrl := u₁ } =
      prepareNodeConfig { p with dasServerUrl := u₂ } := by
  unfold prepareNodeConfig assembleNodeConfig withFallbackS3 withDataAvailability withBlobClient
    baseNodeConfig
  simp [h]

/-- Claim C2, witness: the amended blob-client theorem instantiated at a
concrete layer-1 input with a beacon URL. -/
theorem prepareNodeConfig_blobClient_iff_beacon_witness :
    prepareNodeConfig exampleParamsL1 = Except.ok (assembleNodeConfig exampleParamsL1)
    ∧ ((assembleNodeConfig exampleParamsL1).parentChain.blobClient.isSome =
        isTruthy exampleParamsL1.parentChainBeaconRpcUrl
      ∧ (getParentChainLayer exampleParamsL1.parentChainId = 1 →
          (assembleNodeConfig exampleParamsL1).parentChain.blobClient.isSome = true)) :=
  ⟨rfl, prepareNodeConfig_blobClient_iff_beacon exampleParamsL1
    (assembleNodeConfig exampleParamsL1) rfl⟩

/-- Claim C3, witness: the amended verbatim-URL theorem instantiated at a
concrete layer-1 input with a beacon URL. -/
theorem prepareNodeConfig_blobClient_verbatim_witness :
    prepareNodeConfig exampleParamsL1 = Except.ok (assembleNodeConfig exampleParamsL1)
    ∧ ((assembleNodeConfig exampleParamsL1).parentChain.blobClient.isSome =
        isTruthy exampleParamsL1.parentChainBeaconRpcUrl
      ∧ (∀ b, (assembleNodeConfig exampleParamsL1).parentChain.blobClient = some b →
          exampleParamsL1.parentChainBeaconRpcUrl = some b.beaconUrl)) :=
  ⟨rfl, prepareNodeConfig_blobClient_verbatim exampleParamsL1
    (assembleNodeConfig exampleParamsL1) rfl⟩

/-- Claim C4, witness: the disable-blob-reader theorem instantiated at a
concrete layer-2 non-Arbitrum-free input (Arbitrum Sepolia, flag false). -/
theorem prepareNodeConfig_disableBlobReader_witness :
    prepareNodeConfig exampleParams = Except.ok (assembleNodeConfig exampleParams)
    ∧ ((assembleNodeConfig exampleParams).node.dangerous.disableBlobReader = true ↔
        (getParentChainLayer exampleParams.parentChainId ≠ 1
          ∧ parentChainIsArbitrum exampleParams.parentChainId = false)) :=
  ⟨rfl, prepareNodeConfig_disableBlobReader exampleParams
    (assembleNodeConfig exampleParams) rfl⟩

/-- Claim C5, witness: the chain-id round-trip theorem instantiated at a
concrete input. -/
theorem prepareNodeConfig_chain_ids_witness :
    prepareNodeConfig exampleParams = Except.ok (assembleNodeConfig exampleParams)
    ∧ (assembleNodeConfig exampleParams).chain.infoJson.map
        (fun info => (info.chainId, info.parentChainId)) =
      [(exampleParams.chainConfig.chainId, exampleParams.parentChainId)] :=
  ⟨rfl, prepareNodeConfig_chain_ids exampleParams (assembleNodeConfig exampleParams) rfl⟩

/-- Claim C6, witness: the data-availability theorem instantiated at a
concrete committee-enabled input with an explicit DAS server URL. -/
theorem prepareNodeConfig_dataAvailability_witness :
    prepareNodeConfig exampleParamsL1 = Except.ok (assembleNodeConfig exampleParamsL1)
    ∧ ((assembleNodeConfig exampleParamsL1).node.dataAvailability.isSome =
        exampleParamsL1.chainConfig.arbitrum.DataAvailabilityCommittee
      ∧ (∀ da, (assembleNodeConfig exampleParamsL1).node.dataAvailability = some da →
          da.restAggregator.urls =
            [(exampleParamsL1.dasServerUrl.getD "http://localhost") ++ ":9877"]
          ∧ da.rpcAggregator.assumedHonest = 1)) :=
  ⟨rfl, prepareNodeConfig_dataAvailability exampleParamsL1
    (assembleNodeConfig exampleParamsL1) rfl⟩

/-- Claim C7, witness: the fallback-storage theorem instantiated at a
concrete input with fallback storage enabled and all five fields present. -/
theorem prepareNodeConfig_fallbackS3_witness :
    prepareNodeConfig exampleParamsL1 = Except.ok (assembleNodeConfig exampleParamsL1)
    ∧ ((assembleNodeConfig exampleParamsL1).node.avail.fallbackS3ServiceConfig.enable =
        exampleParamsL1.fallbackS3Config.enable
      ∧ (exampleParamsL1.fallbackS3Config.enable = true →
          (assembleNodeConfig exampleParamsL1).node.avail.fallbackS3ServiceConfig =
            { enable := true
              accessKey := exampleParamsL1.fallbackS3Config.accessKey
              bucket := exampleParamsL1.fallbackS3Config.bucket
              objectPrefix := exampleParamsL1.fallbackS3Config.objectPrefix
              region := exampleParamsL1.fallbackS3Config.region
              secretKey := exampleParamsL1.fallbackS3Config.secretKey
              discardAfterTimeout := some false })) :=
  ⟨rfl, prepareNodeConfig_fallbackS3 exampleParamsL1 (assembleNodeConfig exampleParamsL1) rfl⟩

/-- Claim C8, witness: the private-key theorem instantiated at a concrete
input with a `0x`-marked batch-poster key and an unmarked validator key. -/
theorem prepareNodeConfig_privateKeys_witness :
    prepareNodeConfig exampleParams = Except.ok (assembleNodeConfig exampleParams)
    ∧ ((assembleNodeConfig exampleParams).node.batchPoster.parentChainWallet.privateKey =
        (if exampleParams.batchPosterPrivateKey.startsWith "0x" then
            exampleParams.batchPosterPrivateKey.drop 2
          else exampleParams.batchPosterPrivateKey)
      ∧ (assembleNodeConfig exampleParams).node.staker.parentChainWallet.privateKey =
        (if exampleParams.validatorPrivateKey.startsWith "0x" then
            exampleParams.validatorPrivateKey.drop 2
          else exampleParams.validatorPrivateKey)) :=
  ⟨rfl, prepareNodeConfig_privateKeys exampleParams (assembleNodeConfig exampleParams) rfl⟩

/-- Claim C9, witness: the amended no-S3-validation theorem instantiated at a
concrete layer-2 input with fallback enabled and all five fields absent. -/
theorem prepareNodeConfig_no_s3_validation_witness :
    ¬(getParentChainLayer exampleParamsS3MissingFieldsL2.parentChainId = 1
      ∧ isTruthy exampleParamsS3MissingFieldsL2.parentChainBeaconRpcUrl = false)
    ∧ exampleParamsS3MissingFieldsL2.fallbackS3Config.enable = true
    ∧ ∃ c, prepareNodeConfig exampleParamsS3MissingFieldsL2 = Except.ok c
        ∧ c.node.avail.fallbackS3ServiceConfig =
          { enable := true
            accessKey := exampleParamsS3MissingFieldsL2.fallbackS3Config.accessKey
            bucket := exampleParamsS3MissingFieldsL2.fallbackS3Config.bucket
            objectPrefix := exampleParamsS3MissingFieldsL2.fallbackS3Config.objectPrefix
            region := exampleParamsS3MissingFieldsL2.fallbackS3Config.region
            secretKey := exampleParamsS3MissingFieldsL2.fallbackS3Config.secretKey
            discardAfterTimeout := some false } :=
  ⟨by decide, rfl,
    prepareNodeConfig_no_s3_validation exampleParamsS3MissingFieldsL2 (by decide) rfl⟩

/-- Claim C10, witness: the dasServerUrl-irrelevance theorem instantiated at
a concrete committee-disabled input, with no URL versus an explicit URL. -/
theorem prepareNodeConfig_dasServerUrl_irrelevant_witness :
    exampleParams.chainConfig.arbitrum.DataAvailabilityCommittee = false
    ∧ prepareNodeConfig { exampleParams with dasServerUrl := none } =
        prepareNodeConfig { exampleParams with dasServerUrl := some "http://das.example" } :=
  ⟨rfl, prepareNodeConfig_dasServerUrl_irrelevant exampleParams none
    (some "http://das.example") rfl⟩
